import Mathlib

/-!
Verification development for the srsRAN-matlab MEX binding layer.

This file shallowly embeds the argument-marshaling and control-flow logic of

  * `+srsMEX/source/lib/phy/upper/channel_processors/prach_detector_mex.cpp`
    (`MexFunction::method_step` for PRACH detection),
  * `+srsMEX/source/lib/phy/upper/signal_processors/multiport_channel_estimator_mex.cpp`
    (`MexFunction::method_step` for multiport channel estimation),
  * `sourceMex/include/srsran_matlab/support/matlab_to_srs.h`
    (string-tag to enum converters),

and proves properties of them.  The underlying srsRAN library algorithms
(the PRACH detector proper and the port channel estimator proper) are not
part of this repository; they are modelled as explicit function parameters
(`detect`, `compute`) of the embedded `method_step` functions, so every
theorem below is quantified over all possible behaviours of the library.

Conventions of the embedding:
  * complex samples are pairs of rationals (`Cplx`); float/double arithmetic
    is modelled exactly over `Rat`;
  * an aborted MEX call (`mex_abort` / `srsran_terminate`) is an
    `Except.error` carrying the error kind of the specification
    (`InvalidArgument`, `NotFound`) together with the message text of the
    corresponding abort site in the C++ source;
  * a `NaN` double written into an output record is the `mval.nan` value.
-/

/-- A complex sample: real and imaginary part, as exact rationals. -/
structure Cplx where
  re : Rat
  im : Rat
deriving DecidableEq, Repr

/-- The error kinds of the specification (section 7): `InvalidArgument` for
malformed shapes, count mismatches and unsupported enum values, `NotFound`
for a PRACH call that detects zero preambles. -/
inductive ErrKind where
  | invalidArgument
  | notFound
deriving DecidableEq, Repr

/-- An aborted MEX call: the specification-level error kind and the message
of the `mex_abort`/`srsran_terminate` site in the C++ source. -/
structure MexError where
  kind : ErrKind
  msg : String
deriving DecidableEq, Repr

/-! ## `matlab_to_srs.h`: string tags to srsRAN enum values -/

/-- srsRAN `modulation_scheme` (the values reachable from this binding). -/
inductive modulation_scheme where
  | BPSK
  | QPSK
  | QAM16
  | QAM64
  | QAM256
deriving DecidableEq, Repr

/-- srsRAN `ldpc_base_graph_type`. -/
inductive ldpc_base_graph_type where
  | BG1
  | BG2
deriving DecidableEq, Repr

/-- srsRAN `restricted_set_config`. -/
inductive restricted_set_config where
  | UNRESTRICTED
  | TYPE_A
  | TYPE_B
deriving DecidableEq, Repr

/-- srsRAN `preamble_format`. -/
inductive preamble_format where
  | FORMAT0
  | FORMAT1
  | FORMAT2
  | FORMAT3
  | OTHER
deriving DecidableEq, Repr

/-- `matlab_to_srs_modulation` of `matlab_to_srs.h`: maps a MATLAB modulation
name to an srsRAN `modulation_scheme`; unknown names hit `srsran_terminate`
(an `InvalidArgument` abort). -/
def matlab_to_srs_modulation (modulation_name : String) : Except MexError modulation_scheme :=
  if modulation_name = "BPSK" ∨ modulation_name = "pi/2-BPSK" then
    .ok .BPSK
  else if modulation_name = "QPSK" then
    .ok .QPSK
  else if modulation_name = "QAM16" ∨ modulation_name = "16QAM" then
    .ok .QAM16
  else if modulation_name = "QAM64" ∨ modulation_name = "64QAM" then
    .ok .QAM64
  else if modulation_name = "QAM256" ∨ modulation_name = "256QAM" then
    .ok .QAM256
  else
    .error ⟨.invalidArgument, "Unknown modulation " ++ modulation_name ++ "."⟩

/-- `matlab_to_srs_base_graph` of `matlab_to_srs.h`. -/
def matlab_to_srs_base_graph (bg : Nat) : Except MexError ldpc_base_graph_type :=
  if bg = 1 then
    .ok .BG1
  else if bg = 2 then
    .ok .BG2
  else
    .error ⟨.invalidArgument, "Unknown base graph " ++ toString bg ++ "."⟩

/-- `matlab_to_srs_restricted_set` of `matlab_to_srs.h`: maps a MATLAB
restricted-set name to an srsRAN `restricted_set_config`; unknown names hit
`srsran_terminate` (an `InvalidArgument` abort). -/
def matlab_to_srs_restricted_set (restricted_set : String) : Except MexError restricted_set_config :=
  if restricted_set = "UnrestrictedSet" then
    .ok .UNRESTRICTED
  else if restricted_set = "RestrictedSetTypeA" then
    .ok .TYPE_A
  else if restricted_set = "RestrictedSetTypeB" then
    .ok .TYPE_B
  else
    .error ⟨.invalidArgument, "Unknown restricted set " ++ restricted_set ++ "."⟩

/-- `matlab_to_srs_preamble_format` of `matlab_to_srs.h`: maps the MATLAB
format digits 0-3 to the long formats and every other string to
`preamble_format::OTHER`.  Note: this function is total — it never aborts. -/
def matlab_to_srs_preamble_format (fmt : String) : preamble_format :=
  if fmt = "0" then
    .FORMAT0
  else if fmt = "1" then
    .FORMAT1
  else if fmt = "2" then
    .FORMAT2
  else if fmt = "3" then
    .FORMAT3
  else
    .OTHER

/-! ## `prach_detector_mex.cpp`: `MexFunction::method_step`

The `step` method converts the MATLAB configuration structure, branches on
the restricted-set configuration, creates and fills an srsRAN PRACH buffer,
runs the (library-provided) detector and marshals the result back.  The
library calls `create_prach_buffer_long` / `create_prach_buffer_short` and
`prach_detector::detect` are not part of this repository; the detector is a
function parameter, the buffers are modelled below. -/

/-- srsRAN `prach_constants::LONG_SEQUENCE_LENGTH` (length of the L839
Zadoff-Chu preamble sequence). -/
def LONG_SEQUENCE_LENGTH : Nat := 839

/-- srsRAN `prach_constants::SHORT_SEQUENCE_LENGTH` (length of the L139
Zadoff-Chu preamble sequence). -/
def SHORT_SEQUENCE_LENGTH : Nat := 139

/-- The MATLAB `config` structure consumed by the PRACH `step` method: the
fields read by `method_step`, with the string-valued fields still
unconverted. -/
structure prach_cfg_in where
  restricted_set : String
  root_sequence_index : Nat
  format : String
  zero_correlation_zone : Nat
deriving DecidableEq, Repr

/-- srsRAN `prach_detector::configuration` as filled in by `method_step`. -/
structure prach_detector_configuration where
  root_sequence_index : Nat
  format : preamble_format
  restricted_set : restricted_set_config
  zero_correlation_zone : Nat
  start_preamble_index : Nat
  nof_preamble_indices : Nat
deriving DecidableEq, Repr

/-- The configuration `method_step` hands to the detector once the
restricted set has been converted (source lines 59-66): the remaining
fields of the MATLAB structure are read, the format string is converted,
and the preamble index range is fixed to start 0, count 64. -/
def buildPrachDetectorConfig (cfg : prach_cfg_in) (rs : restricted_set_config) :
    prach_detector_configuration :=
  { root_sequence_index := cfg.root_sequence_index
    format := matlab_to_srs_preamble_format cfg.format
    restricted_set := rs
    zero_correlation_zone := cfg.zero_correlation_zone
    start_preamble_index := 0
    nof_preamble_indices := 64 }

/-- The kind of PRACH buffer `method_step` creates: `create_prach_buffer_long`
receives the number of input columns, `create_prach_buffer_short` is always
called with occasion arguments `(1, 1)`. -/
inductive PrachBufferKind where
  | long (nof_symbols : Nat)
  | short
deriving DecidableEq, Repr

/-- Modelled from the spec: the symbol capacity of the PRACH buffers returned
by `create_prach_buffer_long` / `create_prach_buffer_short`, which are srsRAN
library functions not contained in this repository.  The spec (section 3)
describes a PRACH buffer as holding "a configurable number of preamble
occasions (symbols)"; accordingly a long buffer created for `nof_symbols`
occasions holds `nof_symbols` symbols, and the short buffer, created with
the fixed occasion arguments `(1, 1)`, holds one symbol. -/
def shortBufferSymbolCapacity : Nat := 1

/-- Modelled from the spec: how many symbol slots the created buffer offers
to `get_symbol` (see `shortBufferSymbolCapacity`). -/
def PrachBufferKind.symbolCapacity : PrachBufferKind → Nat
  | .long nof_symbols => nof_symbols
  | .short => shortBufferSymbolCapacity

/-- Buffer creation (source lines 82-89): the first input dimension selects
the long path, the short path, or the `mex_abort` for an unsupported shape. -/
def makePrachBuffer (nof_samples nof_symbols : Nat) : Except MexError PrachBufferKind :=
  if nof_samples = LONG_SEQUENCE_LENGTH then
    .ok (.long nof_symbols)
  else if nof_samples = SHORT_SEQUENCE_LENGTH then
    .ok .short
  else
    .error ⟨.invalidArgument,
      "Invalid number of samples. Dimensions=[" ++ toString nof_samples ++ ", "
        ++ toString nof_symbols ++ "]."⟩

/-- The MATLAB inputs of the PRACH `step` method: the dimensions of the
`prach_symbols` array and its contents (`data s i` is sample `i` of column
`s`, mirroring `in_cft_array[i_symbol][i_sample]`). -/
structure prach_step_input where
  dims : List Nat
  data : Nat → Nat → Cplx

/-- The PRACH buffer as seen by the detector: its kind and the symbols the
fill loop (source lines 95-101) wrote into it. -/
structure prach_buffer_model where
  kind : PrachBufferKind
  symbols : List (List Cplx)

/-- The fill loop (source lines 95-101): column `i_symbol` of the input array
is copied into symbol `i_symbol` of the buffer. -/
def fillPrachBuffer (kind : PrachBufferKind) (inp : prach_step_input)
    (nof_samples nof_symbols : Nat) : prach_buffer_model :=
  { kind := kind
    symbols := (List.range nof_symbols).map fun s =>
      (List.range nof_samples).map fun i => inp.data s i }

/-- The fill loop writes symbols `0, …, nof_symbols - 1` of the buffer; the
writes are in bounds when every such index is below the buffer's symbol
capacity. -/
def fillWritesInBounds (kind : PrachBufferKind) (nof_symbols : Nat) : Prop :=
  ∀ i < nof_symbols, i < kind.symbolCapacity

instance (kind : PrachBufferKind) (nof_symbols : Nat) :
    Decidable (fillWritesInBounds kind nof_symbols) :=
  Nat.decidableBallLT _ _

/-- One entry of srsRAN `prach_detection_result::preambles`; the durations
are already converted to seconds (`phy_time_unit::to_seconds`). -/
structure preamble_indication where
  preamble_index : Nat
  time_advance : Rat
  power_dB : Rat
  snr_dB : Rat
deriving DecidableEq, Repr

/-- srsRAN `prach_detection_result`, durations in seconds. -/
structure prach_detection_result where
  rssi_dB : Rat
  time_resolution : Rat
  time_advance_max : Rat
  preambles : List preamble_indication
deriving DecidableEq, Repr

/-- The MATLAB output structure built by `method_step` (source lines
112-131). -/
structure detected_preamble_record where
  nof_detected_preambles : Nat
  preamble_index : Nat
  time_advance : Rat
  power_dB : Rat
  snr_dB : Rat
  rssi_dB : Rat
  time_resolution : Rat
  time_advance_max : Rat
deriving DecidableEq, Repr

/-- A dummy `preamble_indication`, only used as the default of `getLastD`
(the source calls `back()` on a vector known to be non-empty). -/
def dummy_preamble : preamble_indication := ⟨0, 0, 0, 0⟩

/-- Result marshaling (source lines 106-132): an empty preamble list hits
the `mex_abort` ("No PRACH preambles were detected."); otherwise the output
structure is filled from `result.preambles.back()` together with the
preamble count and the global `rssi_dB`, `time_resolution` and
`time_advance_max`. -/
def marshal_detection_result (result : prach_detection_result) :
    Except MexError (Option detected_preamble_record) :=
  if result.preambles.length = 0 then
    .error ⟨.notFound, "No PRACH preambles were detected."⟩
  else
    .ok (some
      { nof_detected_preambles := result.preambles.length
        preamble_index := (result.preambles.getLastD dummy_preamble).preamble_index
        time_advance := (result.preambles.getLastD dummy_preamble).time_advance
        power_dB := (result.preambles.getLastD dummy_preamble).power_dB
        snr_dB := (result.preambles.getLastD dummy_preamble).snr_dB
        rssi_dB := result.rssi_dB
        time_resolution := result.time_resolution
        time_advance_max := result.time_advance_max })

/-- The unrestricted branch of `method_step` (source lines 61-132): check
that the input array is two-dimensional, create the buffer from the first
dimension, fill it with the input columns, run the detector and marshal the
result. -/
def prach_unrestricted_step
    (detect : prach_buffer_model → prach_detector_configuration → prach_detection_result)
    (inp : prach_step_input) (detector_config : prach_detector_configuration) :
    Except MexError (Option detected_preamble_record) :=
  if inp.dims.length = 2 then
    match makePrachBuffer (inp.dims.getD 0 0) (inp.dims.getD 1 0) with
    | .error e => .error e
    | .ok kind =>
      marshal_detection_result
        (detect (fillPrachBuffer kind inp (inp.dims.getD 0 0) (inp.dims.getD 1 0))
          detector_config)
  else
    .error ⟨.invalidArgument,
      "Invalid number of dimensions (i.e., " ++ toString inp.dims.length ++ ")."⟩

/-- `MexFunction::method_step` of `prach_detector_mex.cpp`, parametric in the
srsRAN detector `detect` (a library component outside this repository).
Outcomes: `.error e` models a `mex_abort`, `.ok none` models the restricted
"skipped" path that produces no output, `.ok (some r)` is a detection
record.  Mirrors the source: the restricted-set string is converted first;
only the `UNRESTRICTED` value enters the detection branch, every other value
falls through to the `std::cout` "Skipping" message and produces nothing. -/
def prach_method_step
    (detect : prach_buffer_model → prach_detector_configuration → prach_detection_result)
    (inp : prach_step_input) (cfg : prach_cfg_in) :
    Except MexError (Option detected_preamble_record) :=
  match matlab_to_srs_restricted_set cfg.restricted_set with
  | .error e => .error e
  | .ok rs =>
    if rs = restricted_set_config.UNRESTRICTED then
      prach_unrestricted_step detect inp (buildPrachDetectorConfig cfg rs)
    else
      .ok none

/-! ## `multiport_channel_estimator_mex.cpp`: `MexFunction::method_step`

The `step` method converts the MATLAB configuration, validates the port and
pilot counts, fills an srsRAN resource grid, builds the DM-RS pilot list,
runs the (library-provided) port channel estimator once per receive port and
marshals the channel estimate and the per-port metrics back.  The estimator
`port_channel_estimator::compute` (together with the `channel_estimate`
getters that read back its results) is not part of this repository and is a
function parameter of the embedding; the cyclic-prefix and
subcarrier-spacing converters, which are likewise outside this repository
and only populate fields consumed by the estimator, are represented by
already-converted numeric fields. -/

/-- srsRAN `NRE`: number of resource elements (subcarriers) per resource
block. -/
def NRE : Nat := 12

/-- The MATLAB `config` structure consumed by the estimator `step` method:
the fields read by `method_step`.  `cp` and `scs` stand for the already
converted `CyclicPrefix` and `SubcarrierSpacing` fields. -/
structure est_cfg_in where
  cp : Nat
  scs : Nat
  Symbols : List Bool
  RBMask : List Bool
  HoppingIndex : Option Nat
  RBMask2 : List Bool
  REPattern : List Bool
  BetaScaling : Rat
  PortIndices : List Nat
deriving DecidableEq, Repr

/-- The MATLAB inputs of the estimator `step` method: the dimensions of the
`rxGrid` array (2 or 3 of them, enforced by `check_step_outputs_inputs`),
the symbol allocation pair, the `refSym` pilot column and the configuration
structure.  The grid contents are omitted: they are only ever read back by
the external estimator, which the embedding quantifies over. -/
structure est_step_input where
  gridDims : List Nat
  symbolAllocation : Nat × Nat
  refSym : List Cplx
  cfg : est_cfg_in

/-- Number of receive ports (source lines 108-113): the third `rxGrid`
dimension when present, and 1 for a two-dimensional grid. -/
def nof_rx_ports_of (gridDims : List Nat) : Nat :=
  if gridDims.length = 3 then gridDims.getD 2 0 else 1

/-- Expected number of pilot symbols (source lines 145-146):
`rb_mask.count() * re_pattern.count()` pilot-bearing REs per symbol, times
`symbols.count()` pilot-bearing symbols. -/
def pilot_count (cfg : est_cfg_in) : Nat :=
  (cfg.RBMask.count true * cfg.REPattern.count true) * cfg.Symbols.count true

/-- The `mex_abort` of source lines 122-124: `PortIndices` length and grid
port count disagree. -/
def port_mismatch_error (nof_port_indices nof_rx_ports : Nat) : MexError :=
  ⟨.invalidArgument,
    "PortIndices and number of resource grid ports do not match: "
      ++ toString nof_port_indices ++ " vs. " ++ toString nof_rx_ports ++ "."⟩

/-- The `mex_abort` of source lines 147-150: pilot count disagrees with the
DM-RS pattern. -/
def pilot_count_error (expected received : Nat) : MexError :=
  ⟨.invalidArgument,
    "Expected " ++ toString expected ++ " DM-RS symbols, received "
      ++ toString received ++ "."⟩

/-- `dmrs_symbol_list::set_slice`: functional update of the slice table at
one port index. -/
def set_slice (pilots : Nat → List Cplx) (v : List Cplx) (i_port : Nat) :
    Nat → List Cplx :=
  fun j => if j = i_port then v else pilots j

/-- The pilot-filling loop of source lines 157-160: starting from an empty
`dmrs_symbol_list`, `set_slice(pilot_view, i_port)` is applied for
`i_port = 0, …, n - 1`, always with the same `pilot_view`. -/
def build_pilots (n : Nat) (pilot_view : List Cplx) : Nat → List Cplx :=
  (List.range n).foldl (fun pilots i_port => set_slice pilots pilot_view i_port)
    (fun _ => [])

/-- The per-port scalar metrics read back from the srsRAN `channel_estimate`
after `compute` has run for that port (`get_noise_variance`, `get_rsrp`,
`get_epre`, `get_snr`, `get_time_alignment().to_seconds()`). -/
structure port_metrics where
  noise_variance : Rat
  rsrp : Rat
  epre : Rat
  snr : Rat
  time_alignment : Rat
deriving DecidableEq, Repr

/-- A value stored in a field of the MATLAB `info` output record: an exact
number or the quiet NaN written for the aggregate SINR. -/
inductive mval where
  | val (q : Rat)
  | nan
deriving DecidableEq, Repr

/-- One element of the `info` output structure array (source line 180). -/
structure info_record where
  NoiseVar : mval
  RSRP : mval
  EPRE : mval
  SINR : mval
  TimeAlignment : mval
deriving DecidableEq, Repr

/-- Running totals accumulated by the metrics loop of source lines 181-196:
noise variance, RSRP, EPRE and time alignment. -/
structure metric_totals where
  noise_var : Rat
  rsrp : Rat
  epre : Rat
  time_alignment : Rat
deriving DecidableEq, Repr

/-- The metrics loop of source lines 185-196, iterated for ports
`0, …, n - 1`: emits one `info` record per port from that port's metrics and
adds the port's noise variance, RSRP, EPRE and time alignment to the running
totals. -/
def est_info_loop (metrics : Nat → port_metrics) :
    Nat → List info_record × metric_totals
  | 0 => ([], ⟨0, 0, 0, 0⟩)
  | n + 1 =>
    let prev := est_info_loop metrics n
    let m := metrics n
    (prev.1 ++
        [{ NoiseVar := .val m.noise_variance
           RSRP := .val m.rsrp
           EPRE := .val m.epre
           SINR := .val m.snr
           TimeAlignment := .val m.time_alignment }],
      { noise_var := prev.2.noise_var + m.noise_variance
        rsrp := prev.2.rsrp + m.rsrp
        epre := prev.2.epre + m.epre
        time_alignment := prev.2.time_alignment + m.time_alignment })

/-- The aggregate record stored in the last `info` entry (source lines
198-205): each accumulated total divided by the number of ports, and a quiet
NaN for the SINR. -/
def est_aggregate_record (totals : metric_totals) (nof_rx_ports : Nat) : info_record :=
  { NoiseVar := .val (totals.noise_var / (nof_rx_ports : Rat))
    RSRP := .val (totals.rsrp / (nof_rx_ports : Rat))
    EPRE := .val (totals.epre / (nof_rx_ports : Rat))
    SINR := .nan
    TimeAlignment := .val (totals.time_alignment / (nof_rx_ports : Rat)) }

/-- The two outputs of the estimator `step` method: the channel-estimate
array with its declared MATLAB dimensions (source lines 169-170) and its
contents, and the `info` structure array. -/
structure est_output where
  ch_est_dims : Nat × Nat × Nat
  ch_est : List Cplx
  info : List info_record

/-- The pilot list handed to the estimator in this call: `build_pilots`
applied to the grid port count and the single `refSym` input column. -/
def est_pilots (inp : est_step_input) : Nat → List Cplx :=
  build_pilots (nof_rx_ports_of inp.gridDims) inp.refSym

/-- The per-port metrics produced by the (parameterised) estimator in this
call. -/
def est_metrics (compute : Nat → (Nat → List Cplx) → port_metrics × List Cplx)
    (inp : est_step_input) : Nat → port_metrics :=
  fun i_port => (compute i_port (est_pilots inp)).1

/-- The outputs built once both validation checks have passed (source lines
151-208): the channel-estimate array of declared dimensions
`(nof_prb * NRE, nof_symbols, nof_rx_ports)` filled per port with the
estimator's path estimate, and the `info` structure array holding one record
per port followed by the aggregate record. -/
def est_checked_step (compute : Nat → (Nat → List Cplx) → port_metrics × List Cplx)
    (inp : est_step_input) : est_output :=
  { ch_est_dims :=
      (inp.cfg.RBMask.length * NRE, inp.cfg.Symbols.length, nof_rx_ports_of inp.gridDims)
    ch_est := ((List.range (nof_rx_ports_of inp.gridDims)).map fun i_port =>
      (compute i_port (est_pilots inp)).2).flatten
    info := (est_info_loop (est_metrics compute inp) (nof_rx_ports_of inp.gridDims)).1 ++
      [est_aggregate_record
        (est_info_loop (est_metrics compute inp) (nof_rx_ports_of inp.gridDims)).2
        (nof_rx_ports_of inp.gridDims)] }

/-- `MexFunction::method_step` of `multiport_channel_estimator_mex.cpp`,
parametric in the srsRAN estimator: `compute i_port pilots` returns the
per-port metrics and the path channel estimate that
`estimator->compute(…, i_port, pilots, cfg)` followed by the
`channel_estimate` getters produce for port `i_port` (the resource grid and
the fixed configuration are folded into the function).  Mirrors the source:
the port-count check, the pilot-count check, the pilot list built by
repeated `set_slice`, the per-port compute-and-copy loop for the estimate
array of dimensions `(nof_prb * NRE, nof_symbols, nof_rx_ports)`, the
per-port metrics records, and the aggregate record appended last. -/
def est_method_step
    (compute : Nat → (Nat → List Cplx) → port_metrics × List Cplx)
    (inp : est_step_input) : Except MexError est_output :=
  if inp.cfg.PortIndices.length ≠ nof_rx_ports_of inp.gridDims then
    .error (port_mismatch_error inp.cfg.PortIndices.length (nof_rx_ports_of inp.gridDims))
  else if inp.refSym.length ≠ pilot_count inp.cfg then
    .error (pilot_count_error (pilot_count inp.cfg) inp.refSym.length)
  else
    .ok (est_checked_step compute inp)

/-! ## Helper lemmas -/

/-- `getLastD` on a non-empty list is its last element. -/
theorem getLastD_of_ne_nil {α : Type} (l : List α) (h : l ≠ []) (d : α) :
    l.getLastD d = l.getLast h := by
  rw [List.getLastD_eq_getLast?, List.getLast?_eq_getLast l h, Option.getD_some]

/-- When the restricted-set string converts to `UNRESTRICTED`, `method_step`
runs the unrestricted branch on the detector configuration built from the
remaining fields. -/
theorem prach_method_step_unrestricted
    (detect : prach_buffer_model → prach_detector_configuration → prach_detection_result)
    (inp : prach_step_input) (cfg : prach_cfg_in)
    (hc : matlab_to_srs_restricted_set cfg.restricted_set = .ok .UNRESTRICTED) :
    prach_method_step detect inp cfg =
      prach_unrestricted_step detect inp
        (buildPrachDetectorConfig cfg restricted_set_config.UNRESTRICTED) := by
  unfold prach_method_step
  rw [hc]
  exact if_pos rfl

/-! ## Claim theorems: PRACH detector -/

/-- Claim C1: whenever the configuration's restricted set converts to a
value other than `UNRESTRICTED` (that is, `TYPE_A` or `TYPE_B`), the PRACH
`step` call is a no-op: for every detector behaviour and every input buffer
it produces the skipped outcome — no detection record and no error. -/
theorem prach_restricted_set_skips
    (detect : prach_buffer_model → prach_detector_configuration → prach_detection_result)
    (inp : prach_step_input) (cfg : prach_cfg_in) (rs : restricted_set_config)
    (hc : matlab_to_srs_restricted_set cfg.restricted_set = .ok rs)
    (hr : rs ≠ restricted_set_config.UNRESTRICTED) :
    prach_method_step detect inp cfg = .ok none := by
  unfold prach_method_step
  rw [hc]
  exact if_neg hr

/-- A detector stub that never reports a preamble. -/
def detect_none : prach_buffer_model → prach_detector_configuration → prach_detection_result :=
  fun _ _ => ⟨0, 0, 0, []⟩

/-- A detector stub that always reports the same two preambles. -/
def detect_two : prach_buffer_model → prach_detector_configuration → prach_detection_result :=
  fun _ _ => ⟨5, 1/2, 3, [⟨7, 1/4, 2, 9⟩, ⟨11, 1/8, 6, 13⟩]⟩

/-- Concrete 839-sample two-column input used by the witnesses. -/
def w_prach_input_long : prach_step_input :=
  ⟨[839, 2], fun _ _ => ⟨1, 0⟩⟩

/-- Concrete unrestricted PRACH configuration used by the witnesses. -/
def w_prach_cfg_unrestricted : prach_cfg_in :=
  ⟨"UnrestrictedSet", 1, "0", 0⟩

/-- Concrete type-A restricted PRACH configuration used by the witnesses. -/
def w_prach_cfg_restricted : prach_cfg_in :=
  ⟨"RestrictedSetTypeA", 1, "0", 0⟩

/-- Witness for C1 at a concrete restricted configuration. -/
theorem prach_restricted_set_skips_witness :
    matlab_to_srs_restricted_set w_prach_cfg_restricted.restricted_set =
        .ok restricted_set_config.TYPE_A ∧
      restricted_set_config.TYPE_A ≠ restricted_set_config.UNRESTRICTED ∧
      prach_method_step detect_two w_prach_input_long w_prach_cfg_restricted = .ok none :=
  ⟨rfl, by decide,
    prach_restricted_set_skips detect_two w_prach_input_long w_prach_cfg_restricted
      restricted_set_config.TYPE_A rfl (by decide)⟩

/-- Claim C2: on the unrestricted set with a valid buffer shape, if the
detector finds zero preambles in this call — its result on the buffer
actually created and filled from the input is an empty preamble list — the
call fails with the `NotFound` error of the "No PRACH preambles were
detected." abort: a failure of this call only, with no fabricated result. -/
theorem prach_zero_preambles_not_found
    (detect : prach_buffer_model → prach_detector_configuration → prach_detection_result)
    (inp : prach_step_input) (cfg : prach_cfg_in) (kind : PrachBufferKind)
    (hc : matlab_to_srs_restricted_set cfg.restricted_set = .ok .UNRESTRICTED)
    (hd : inp.dims.length = 2)
    (hbuf : makePrachBuffer (inp.dims.getD 0 0) (inp.dims.getD 1 0) = .ok kind)
    (hzero : (detect (fillPrachBuffer kind inp (inp.dims.getD 0 0) (inp.dims.getD 1 0))
        (buildPrachDetectorConfig cfg restricted_set_config.UNRESTRICTED)).preambles = []) :
    prach_method_step detect inp cfg =
      .error ⟨.notFound, "No PRACH preambles were detected."⟩ := by
  rw [prach_method_step_unrestricted detect inp cfg hc]
  unfold prach_unrestricted_step
  rw [if_pos hd, hbuf]
  show marshal_detection_result
      (detect (fillPrachBuffer kind inp (inp.dims.getD 0 0) (inp.dims.getD 1 0))
        (buildPrachDetectorConfig cfg restricted_set_config.UNRESTRICTED)) = _
  unfold marshal_detection_result
  rw [hzero]
  exact if_pos rfl

/-- A detector stub that reports a preamble on short buffers only, so its
result is empty on this call's long buffer but not on every buffer. -/
def detect_only_short :
    prach_buffer_model → prach_detector_configuration → prach_detection_result :=
  fun buffer _ =>
    if buffer.kind = .short then ⟨5, 1/2, 3, [⟨7, 1/4, 2, 9⟩]⟩ else ⟨0, 0, 0, []⟩

/-- Witness for C2 at a concrete long-format input and a detector that is
empty on this call's buffer (though not on short buffers). -/
theorem prach_zero_preambles_not_found_witness :
    prach_method_step detect_only_short w_prach_input_long w_prach_cfg_unrestricted =
      .error ⟨.notFound, "No PRACH preambles were detected."⟩ :=
  prach_zero_preambles_not_found detect_only_short w_prach_input_long
    w_prach_cfg_unrestricted (.long 2) rfl rfl rfl rfl

/-- Claim C3: whenever the detection list is non-empty, the reported record
carries the `preamble_index`, `time_advance`, `power_dB` and `snr_dB` of the
last element of the ordered detection list — so at most one preamble is
surfaced even when several were detected — together with the
detected-preamble count, the global `rssi_dB`, the `time_resolution` and the
`time_advance_max`. -/
theorem prach_reports_last_detected
    (detect : prach_buffer_model → prach_detector_configuration → prach_detection_result)
    (inp : prach_step_input) (cfg : prach_cfg_in) (kind : PrachBufferKind)
    (result : prach_detection_result)
    (hc : matlab_to_srs_restricted_set cfg.restricted_set = .ok .UNRESTRICTED)
    (hd : inp.dims.length = 2)
    (hbuf : makePrachBuffer (inp.dims.getD 0 0) (inp.dims.getD 1 0) = .ok kind)
    (hres : detect (fillPrachBuffer kind inp (inp.dims.getD 0 0) (inp.dims.getD 1 0))
        (buildPrachDetectorConfig cfg restricted_set_config.UNRESTRICTED) = result)
    (hne : result.preambles ≠ []) :
    prach_method_step detect inp cfg = .ok (some
      { nof_detected_preambles := result.preambles.length
        preamble_index := (result.preambles.getLast hne).preamble_index
        time_advance := (result.preambles.getLast hne).time_advance
        power_dB := (result.preambles.getLast hne).power_dB
        snr_dB := (result.preambles.getLast hne).snr_dB
        rssi_dB := result.rssi_dB
        time_resolution := result.time_resolution
        time_advance_max := result.time_advance_max }) := by
  rw [prach_method_step_unrestricted detect inp cfg hc]
  unfold prach_unrestricted_step
  rw [if_pos hd, hbuf]
  show marshal_detection_result
      (detect (fillPrachBuffer kind inp (inp.dims.getD 0 0) (inp.dims.getD 1 0))
        (buildPrachDetectorConfig cfg restricted_set_config.UNRESTRICTED)) = _
  rw [hres]
  unfold marshal_detection_result
  rw [if_neg (by simpa [List.length_eq_zero] using hne),
    getLastD_of_ne_nil result.preambles hne dummy_preamble]

/-- Witness for C3 at a concrete input and the two-preamble stub: the
record holds the second (last) of the two reported preambles. -/
theorem prach_reports_last_detected_witness :
    prach_method_step detect_two w_prach_input_long w_prach_cfg_unrestricted =
      .ok (some
        { nof_detected_preambles := 2
          preamble_index := 11
          time_advance := 1/8
          power_dB := 6
          snr_dB := 13
          rssi_dB := 5
          time_resolution := 1/2
          time_advance_max := 3 }) :=
  prach_reports_last_detected detect_two w_prach_input_long w_prach_cfg_unrestricted
    (.long 2) ⟨5, 1/2, 3, [⟨7, 1/4, 2, 9⟩, ⟨11, 1/8, 6, 13⟩]⟩
    rfl rfl rfl rfl (by decide)

/-- Claim C4: with the detection branch reached, an input whose per-symbol
sample count is neither `LONG_SEQUENCE_LENGTH` nor `SHORT_SEQUENCE_LENGTH`
makes the call fail with the `InvalidArgument` "Invalid number of samples"
abort before the detector is invoked (the outcome is the same for every
detector `detect`); a long-length input runs the detector on the long
buffer created for the input's column count, and a short-length input runs
it on the short buffer. -/
theorem prach_buffer_shape_selection
    (detect : prach_buffer_model → prach_detector_configuration → prach_detection_result)
    (inp : prach_step_input) (cfg : prach_cfg_in)
    (hc : matlab_to_srs_restricted_set cfg.restricted_set = .ok .UNRESTRICTED)
    (hd : inp.dims.length = 2) :
    (inp.dims.getD 0 0 ≠ LONG_SEQUENCE_LENGTH →
      inp.dims.getD 0 0 ≠ SHORT_SEQUENCE_LENGTH →
      prach_method_step detect inp cfg = .error ⟨.invalidArgument,
        "Invalid number of samples. Dimensions=[" ++ toString (inp.dims.getD 0 0)
          ++ ", " ++ toString (inp.dims.getD 1 0) ++ "]."⟩) ∧
    (inp.dims.getD 0 0 = LONG_SEQUENCE_LENGTH →
      prach_method_step detect inp cfg = marshal_detection_result
        (detect
          (fillPrachBuffer (.long (inp.dims.getD 1 0)) inp (inp.dims.getD 0 0)
            (inp.dims.getD 1 0))
          (buildPrachDetectorConfig cfg restricted_set_config.UNRESTRICTED))) ∧
    (inp.dims.getD 0 0 = SHORT_SEQUENCE_LENGTH →
      prach_method_step detect inp cfg = marshal_detection_result
        (detect
          (fillPrachBuffer .short inp (inp.dims.getD 0 0) (inp.dims.getD 1 0))
          (buildPrachDetectorConfig cfg restricted_set_config.UNRESTRICTED))) := by
  refine ⟨fun h1 h2 => ?_, fun h => ?_, fun h => ?_⟩ <;>
    rw [prach_method_step_unrestricted detect inp cfg hc] <;>
    unfold prach_unrestricted_step <;>
    rw [if_pos hd] <;>
    unfold makePrachBuffer
  · rw [if_neg h1, if_neg h2]
  · rw [if_pos h]
  · rw [if_neg (by rw [h]; decide), if_pos h]

/-- Concrete 17-sample input (neither sequence length) used by the C4
witness. -/
def w_prach_input_bad : prach_step_input :=
  ⟨[17, 2], fun _ _ => ⟨1, 0⟩⟩

/-- Concrete 139-sample two-column input used by the witnesses. -/
def w_prach_input_short : prach_step_input :=
  ⟨[139, 2], fun _ _ => ⟨1, 0⟩⟩

/-- Witness for C4 at concrete inputs of 17, 839 and 139 samples. -/
theorem prach_buffer_shape_selection_witness :
    prach_method_step detect_two w_prach_input_bad w_prach_cfg_unrestricted =
        .error ⟨.invalidArgument,
          "Invalid number of samples. Dimensions=["
            ++ toString (w_prach_input_bad.dims.getD 0 0) ++ ", "
            ++ toString (w_prach_input_bad.dims.getD 1 0) ++ "]."⟩ ∧
      prach_method_step detect_two w_prach_input_long w_prach_cfg_unrestricted =
        marshal_detection_result
          (detect_two
            (fillPrachBuffer (.long (w_prach_input_long.dims.getD 1 0)) w_prach_input_long
              (w_prach_input_long.dims.getD 0 0) (w_prach_input_long.dims.getD 1 0))
            (buildPrachDetectorConfig w_prach_cfg_unrestricted
              restricted_set_config.UNRESTRICTED)) ∧
      prach_method_step detect_two w_prach_input_short w_prach_cfg_unrestricted =
        marshal_detection_result
          (detect_two
            (fillPrachBuffer .short w_prach_input_short (w_prach_input_short.dims.getD 0 0)
              (w_prach_input_short.dims.getD 1 0))
            (buildPrachDetectorConfig w_prach_cfg_unrestricted
              restricted_set_config.UNRESTRICTED)) :=
  ⟨(prach_buffer_shape_selection detect_two w_prach_input_bad w_prach_cfg_unrestricted
      rfl rfl).1 (by decide) (by decide),
    (prach_buffer_shape_selection detect_two w_prach_input_long w_prach_cfg_unrestricted
      rfl rfl).2.1 rfl,
    (prach_buffer_shape_selection detect_two w_prach_input_short w_prach_cfg_unrestricted
      rfl rfl).2.2 rfl⟩

/-- Claim C10 (amended): for every input accepted by the shape check, the
symbol-fill loop stays in bounds exactly when the created buffer is the long
one (whose capacity is the input's column count) or the column count does
not exceed the fixed symbol capacity of the short buffer created with
occasion arguments `(1, 1)`; on the short path the writes are therefore out
of bounds for every larger column count. -/
theorem prach_fill_symbol_bounds (nof_samples nof_symbols : Nat) (kind : PrachBufferKind)
    (h : makePrachBuffer nof_samples nof_symbols = .ok kind) :
    fillWritesInBounds kind nof_symbols ↔
      kind = PrachBufferKind.long nof_symbols ∨
        nof_symbols ≤ shortBufferSymbolCapacity := by
  unfold makePrachBuffer at h
  split_ifs at h with h1 h2 <;> injection h with h <;> subst h
  · exact iff_of_true (fun i hi => hi) (Or.inl rfl)
  · simp only [fillWritesInBounds, PrachBufferKind.symbolCapacity]
    constructor
    · intro hb
      rcases Nat.lt_or_ge shortBufferSymbolCapacity nof_symbols with hlt | hge
      · exact absurd (hb _ hlt) (Nat.lt_irrefl _)
      · exact Or.inr hge
    · rintro (hcase | hle) i hi
      · exact absurd hcase (by simp)
      · exact Nat.lt_of_lt_of_le hi hle

/-- Witness for the amended C10 at a concrete accepted long-format input. -/
theorem prach_fill_symbol_bounds_witness :
    makePrachBuffer 839 3 = .ok (.long 3) ∧
      (fillWritesInBounds (.long 3) 3 ↔
        PrachBufferKind.long 3 = PrachBufferKind.long 3 ∨
          3 ≤ shortBufferSymbolCapacity) :=
  ⟨rfl, prach_fill_symbol_bounds 839 3 (.long 3) rfl⟩

/-- Counterexample to C10 as stated: the 139-sample two-column input passes
the shape check and selects the short buffer, created with the fixed
occasion arguments `(1, 1)` independent of the column count, yet the fill
loop's write of input column 1 targets symbol 1, beyond the short buffer's
symbol capacity — not an in-bounds write. -/
theorem prach_fill_oob_on_short_path :
    makePrachBuffer SHORT_SEQUENCE_LENGTH 2 = .ok .short ∧
      ¬ fillWritesInBounds PrachBufferKind.short 2 :=
  ⟨rfl, by decide⟩

/-! ## Helper lemmas: channel estimator -/

/-- The arithmetic mean of `f 0, …, f (n-1)`. -/
def metric_mean (f : Nat → Rat) (n : Nat) : Rat :=
  ((List.range n).map f).sum / (n : Rat)

/-- When both validation checks pass, the estimator `step` returns the
checked-step outputs. -/
theorem est_method_step_ok
    (compute : Nat → (Nat → List Cplx) → port_metrics × List Cplx)
    (inp : est_step_input)
    (h1 : inp.cfg.PortIndices.length = nof_rx_ports_of inp.gridDims)
    (h2 : inp.refSym.length = pilot_count inp.cfg) :
    est_method_step compute inp = .ok (est_checked_step compute inp) := by
  unfold est_method_step
  rw [if_neg (not_not_intro h1), if_neg (not_not_intro h2)]

/-- The metrics loop emits one record per port. -/
theorem est_info_loop_length (metrics : Nat → port_metrics) (n : Nat) :
    (est_info_loop metrics n).1.length = n := by
  induction n with
  | zero => rfl
  | succ n ih => simp [est_info_loop, ih]

/-- The totals accumulated by the metrics loop are the sums of the per-port
metrics. -/
theorem est_info_loop_totals (metrics : Nat → port_metrics) (n : Nat) :
    (est_info_loop metrics n).2 =
      ⟨((List.range n).map fun i => (metrics i).noise_variance).sum,
        ((List.range n).map fun i => (metrics i).rsrp).sum,
        ((List.range n).map fun i => (metrics i).epre).sum,
        ((List.range n).map fun i => (metrics i).time_alignment).sum⟩ := by
  induction n with
  | zero => rfl
  | succ n ih =>
    simp [est_info_loop, ih, List.range_succ, Rat.add_comm]

/-- Unfolding the pilot-filling loop one iteration: the last iteration sets
slice `n`. -/
theorem build_pilots_succ (n : Nat) (v : List Cplx) :
    build_pilots (n + 1) v = set_slice (build_pilots n v) v n := by
  unfold build_pilots
  rw [List.range_succ, List.foldl_append]
  rfl

/-- Every slice below `n` of the filled pilot list is the input column. -/
theorem build_pilots_lt (n : Nat) (v : List Cplx) :
    ∀ i, i < n → build_pilots n v i = v := by
  induction n with
  | zero => exact fun i hi => absurd hi (Nat.not_lt_zero i)
  | succ n ih =>
    intro i hi
    rw [build_pilots_succ]
    simp only [set_slice]
    by_cases h : i = n
    · rw [if_pos h]
    · rw [if_neg h]
      exact ih i (Nat.lt_of_le_of_ne (Nat.le_of_lt_succ hi) h)

/-! ## Claim theorems: multiport channel estimator -/

/-- Claim C5: the estimator `step` fails with `InvalidArgument` whenever the
number of configured receive-port indices differs from the number of grid
antenna ports, and whenever the number of supplied pilot symbols differs
from (#RB-mask bits set × #RE-pattern bits set) × (#symbol-mask bits set);
when both counts match, the validation checks pass and the call returns its
outputs. -/
theorem est_validation_checks
    (compute : Nat → (Nat → List Cplx) → port_metrics × List Cplx)
    (inp : est_step_input) :
    (inp.cfg.PortIndices.length ≠ nof_rx_ports_of inp.gridDims →
      est_method_step compute inp =
        .error (port_mismatch_error inp.cfg.PortIndices.length
          (nof_rx_ports_of inp.gridDims))) ∧
    (inp.refSym.length ≠ pilot_count inp.cfg →
      ∃ m, est_method_step compute inp = .error ⟨.invalidArgument, m⟩) ∧
    (inp.cfg.PortIndices.length = nof_rx_ports_of inp.gridDims →
      inp.refSym.length = pilot_count inp.cfg →
      est_method_step compute inp = .ok (est_checked_step compute inp)) := by
  refine ⟨fun h1 => ?_, fun h2 => ?_, est_method_step_ok compute inp⟩
  · unfold est_method_step
    rw [if_pos h1]
  · by_cases hp : inp.cfg.PortIndices.length = nof_rx_ports_of inp.gridDims
    · refine ⟨(pilot_count_error (pilot_count inp.cfg) inp.refSym.length).msg, ?_⟩
      unfold est_method_step
      rw [if_neg (not_not_intro hp), if_pos h2]
      rfl
    · refine ⟨(port_mismatch_error inp.cfg.PortIndices.length
        (nof_rx_ports_of inp.gridDims)).msg, ?_⟩
      unfold est_method_step
      rw [if_pos hp]
      rfl

/-- An estimator stub with constant metrics and a one-sample estimate. -/
def compute_stub : Nat → (Nat → List Cplx) → port_metrics × List Cplx :=
  fun _ _ => (⟨1, 2, 3, 4, 5⟩, [⟨1, 0⟩])

/-- An estimator stub whose metrics depend on the port index. -/
def compute_by_port : Nat → (Nat → List Cplx) → port_metrics × List Cplx :=
  fun i _ =>
    (⟨(i : Rat), (i : Rat) + 1, (i : Rat) + 2, (i : Rat) + 3, (i : Rat) + 4⟩, [⟨(i : Rat), 0⟩])

/-- A configuration with a single port index and a one-RE DM-RS pattern. -/
def w_est_cfg_one_port : est_cfg_in :=
  ⟨0, 0, [true], [true], none, [], [true], 1, [0]⟩

/-- A configuration with two port indices and a one-RE DM-RS pattern. -/
def w_est_cfg_two_ports : est_cfg_in :=
  ⟨0, 0, [true], [true], none, [], [true], 1, [0, 1]⟩

/-- A single-port call whose two port indices mismatch the 2-D grid. -/
def w_est_input_port_mismatch : est_step_input :=
  ⟨[12, 1], (0, 1), [⟨1, 0⟩], w_est_cfg_two_ports⟩

/-- A single-port call supplying no pilots although the pattern needs one. -/
def w_est_input_pilot_mismatch : est_step_input :=
  ⟨[12, 1], (0, 1), [], w_est_cfg_one_port⟩

/-- A single-port call passing both validation checks. -/
def w_est_input_ok : est_step_input :=
  ⟨[12, 1], (0, 1), [⟨1, 0⟩], w_est_cfg_one_port⟩

/-- A two-port call (3-D grid) passing both validation checks. -/
def w_est_input_two_ports : est_step_input :=
  ⟨[12, 1, 2], (0, 1), [⟨1, 0⟩], w_est_cfg_two_ports⟩

/-- Witness for C5 at three concrete calls: a port mismatch, a pilot
mismatch, and a call passing both checks. -/
theorem est_validation_checks_witness :
    est_method_step compute_stub w_est_input_port_mismatch =
        .error (port_mismatch_error 2 1) ∧
      (∃ m, est_method_step compute_stub w_est_input_pilot_mismatch =
        .error ⟨.invalidArgument, m⟩) ∧
      est_method_step compute_stub w_est_input_ok =
        .ok (est_checked_step compute_stub w_est_input_ok) :=
  ⟨(est_validation_checks compute_stub w_est_input_port_mismatch).1 (by decide),
    (est_validation_checks compute_stub w_est_input_pilot_mismatch).2.1 (by decide),
    (est_validation_checks compute_stub w_est_input_ok).2.2 rfl rfl⟩

/-- Claim C6: for every valid estimator call with at least one receive
port, the final record of the `info` output (appended after the per-port
records) holds the arithmetic mean over the ports of `NoiseVar`, `RSRP`,
`EPRE` and `TimeAlignment`, and its `SINR` field is the quiet NaN. -/
theorem est_aggregate_is_mean
    (compute : Nat → (Nat → List Cplx) → port_metrics × List Cplx)
    (inp : est_step_input)
    (h1 : inp.cfg.PortIndices.length = nof_rx_ports_of inp.gridDims)
    (h2 : inp.refSym.length = pilot_count inp.cfg)
    (hn : 1 ≤ nof_rx_ports_of inp.gridDims) :
    est_method_step compute inp = .ok (est_checked_step compute inp) ∧
      (est_checked_step compute inp).info.length = nof_rx_ports_of inp.gridDims + 1 ∧
      (est_checked_step compute inp).info.getLast? = some
        { NoiseVar := .val (metric_mean
            (fun i => (est_metrics compute inp i).noise_variance)
            (nof_rx_ports_of inp.gridDims))
          RSRP := .val (metric_mean (fun i => (est_metrics compute inp i).rsrp)
            (nof_rx_ports_of inp.gridDims))
          EPRE := .val (metric_mean (fun i => (est_metrics compute inp i).epre)
            (nof_rx_ports_of inp.gridDims))
          SINR := .nan
          TimeAlignment := .val (metric_mean
            (fun i => (est_metrics compute inp i).time_alignment)
            (nof_rx_ports_of inp.gridDims)) } := by
  refine ⟨est_method_step_ok compute inp h1 h2, ?_, ?_⟩
  · simp [est_checked_step, est_info_loop_length]
  · simp only [est_checked_step]
    rw [List.getLast?_concat, est_info_loop_totals]
    simp [est_aggregate_record, metric_mean]

/-- Witness for C6 at a concrete two-port call with port-dependent metrics. -/
theorem est_aggregate_is_mean_witness :
    est_method_step compute_by_port w_est_input_two_ports =
        .ok (est_checked_step compute_by_port w_est_input_two_ports) ∧
      (est_checked_step compute_by_port w_est_input_two_ports).info.length =
        nof_rx_ports_of w_est_input_two_ports.gridDims + 1 ∧
      (est_checked_step compute_by_port w_est_input_two_ports).info.getLast? = some
        { NoiseVar := .val (metric_mean
            (fun i => (est_metrics compute_by_port w_est_input_two_ports i).noise_variance)
            (nof_rx_ports_of w_est_input_two_ports.gridDims))
          RSRP := .val (metric_mean
            (fun i => (est_metrics compute_by_port w_est_input_two_ports i).rsrp)
            (nof_rx_ports_of w_est_input_two_ports.gridDims))
          EPRE := .val (metric_mean
            (fun i => (est_metrics compute_by_port w_est_input_two_ports i).epre)
            (nof_rx_ports_of w_est_input_two_ports.gridDims))
          SINR := .nan
          TimeAlignment := .val (metric_mean
            (fun i => (est_metrics compute_by_port w_est_input_two_ports i).time_alignment)
            (nof_rx_ports_of w_est_input_two_ports.gridDims)) } :=
  est_aggregate_is_mean compute_by_port w_est_input_two_ports rfl rfl (by decide)

/-- Claim C8 (amended): for every valid estimator call, the returned
channel-estimate output is declared as a dense array of dimensions
(length of the resource-block mask × 12 subcarriers, length of the OFDM
symbol mask, number of receive ports) — the first dimension spans every RB
position covered by the mask, allocated or not — and holds, port slice by
port slice, the estimator's complex path estimate for the single supported
transmit layer. -/
theorem est_output_dimensions
    (compute : Nat → (Nat → List Cplx) → port_metrics × List Cplx)
    (inp : est_step_input)
    (h1 : inp.cfg.PortIndices.length = nof_rx_ports_of inp.gridDims)
    (h2 : inp.refSym.length = pilot_count inp.cfg) :
    est_method_step compute inp = .ok (est_checked_step compute inp) ∧
      (est_checked_step compute inp).ch_est_dims =
        (inp.cfg.RBMask.length * NRE, inp.cfg.Symbols.length,
          nof_rx_ports_of inp.gridDims) ∧
      (est_checked_step compute inp).ch_est =
        ((List.range (nof_rx_ports_of inp.gridDims)).map fun i_port =>
          (compute i_port (est_pilots inp)).2).flatten :=
  ⟨est_method_step_ok compute inp h1 h2, rfl, rfl⟩

/-- A single-port configuration whose RB mask covers two resource blocks
but allocates only the first. -/
def w_est_cfg_sparse : est_cfg_in :=
  ⟨0, 0, [true], [true, false], none, [], [true], 1, [0]⟩

/-- A valid single-port call with the sparse two-RB mask. -/
def w_est_input_sparse : est_step_input :=
  ⟨[24, 1], (0, 1), [⟨1, 0⟩], w_est_cfg_sparse⟩

/-- Witness for the amended C8 at the concrete sparse-mask call. -/
theorem est_output_dimensions_witness :
    est_method_step compute_stub w_est_input_sparse =
        .ok (est_checked_step compute_stub w_est_input_sparse) ∧
      (est_checked_step compute_stub w_est_input_sparse).ch_est_dims =
        (w_est_input_sparse.cfg.RBMask.length * NRE,
          w_est_input_sparse.cfg.Symbols.length,
          nof_rx_ports_of w_est_input_sparse.gridDims) ∧
      (est_checked_step compute_stub w_est_input_sparse).ch_est =
        ((List.range (nof_rx_ports_of w_est_input_sparse.gridDims)).map fun i_port =>
          (compute_stub i_port (est_pilots w_est_input_sparse)).2).flatten :=
  est_output_dimensions compute_stub w_est_input_sparse rfl rfl

/-- Counterexample to C8 as stated: in the valid sparse-mask call only one
resource block is allocated (one RB-mask bit set), yet the first dimension
of the channel-estimate output is 24 = 2 × 12, the full mask length times
`NRE`, not the allocated count times 12. -/
theorem est_dims_exceed_allocated_rbs :
    w_est_input_sparse.cfg.RBMask.count true = 1 ∧
      est_method_step compute_stub w_est_input_sparse =
        .ok (est_checked_step compute_stub w_est_input_sparse) ∧
      (est_checked_step compute_stub w_est_input_sparse).ch_est_dims.1 = 24 ∧
      (est_checked_step compute_stub w_est_input_sparse).ch_est_dims.1 ≠
        w_est_input_sparse.cfg.RBMask.count true * NRE :=
  ⟨by decide, est_method_step_ok compute_stub w_est_input_sparse rfl rfl,
    by decide, by decide⟩

/-- Claim C9: in every estimator call the identical supplied pilot sequence
is used for every receive port — the pilot slice handed to the estimator
for each port index below the port count equals the single `refSym` input
column. -/
theorem est_same_pilots_every_port (inp : est_step_input) :
    ∀ i_port, i_port < nof_rx_ports_of inp.gridDims →
      est_pilots inp i_port = inp.refSym := by
  intro i_port h
  exact build_pilots_lt (nof_rx_ports_of inp.gridDims) inp.refSym i_port h

/-- Witness for C9 at the concrete two-port call: both slices equal the
input column. -/
theorem est_same_pilots_every_port_witness :
    est_pilots w_est_input_two_ports 0 = w_est_input_two_ports.refSym ∧
      est_pilots w_est_input_two_ports 1 = w_est_input_two_ports.refSym :=
  ⟨est_same_pilots_every_port w_est_input_two_ports 0 (by decide),
    est_same_pilots_every_port w_est_input_two_ports 1 (by decide)⟩

/-! ## Claim theorems: string-tag conversion -/

/-- Claim C7 (amended): modulation and restricted-set tags are validated
against a closed set of names at configuration-construction time and every
unknown tag fails fast with `InvalidArgument`; the preamble-format
conversion, however, does not fail on unknown tags — every string other
than the digits 0-3 is mapped to the catch-all `preamble_format.OTHER`
value, which propagates into the detector configuration. -/
theorem enum_tag_validation (s : String) :
    (s ∉ ["BPSK", "pi/2-BPSK", "QPSK", "QAM16", "16QAM", "QAM64", "64QAM",
        "QAM256", "256QAM"] →
      matlab_to_srs_modulation s =
        .error ⟨.invalidArgument, "Unknown modulation " ++ s ++ "."⟩) ∧
    (s ∉ ["UnrestrictedSet", "RestrictedSetTypeA", "RestrictedSetTypeB"] →
      matlab_to_srs_restricted_set s =
        .error ⟨.invalidArgument, "Unknown restricted set " ++ s ++ "."⟩) ∧
    (s ∉ ["0", "1", "2", "3"] →
      matlab_to_srs_preamble_format s = preamble_format.OTHER) := by
  refine ⟨fun h => ?_, fun h => ?_, fun h => ?_⟩ <;> simp only [List.mem_cons,
    List.mem_singleton, not_or] at h
  · obtain ⟨h1, h2, h3, h4, h5, h6, h7, h8, h9, -⟩ := h
    simp [matlab_to_srs_modulation, h1, h2, h3, h4, h5, h6, h7, h8, h9]
  · obtain ⟨h1, h2, h3, -⟩ := h
    simp [matlab_to_srs_restricted_set, h1, h2, h3]
  · obtain ⟨h1, h2, h3, h4, -⟩ := h
    simp [matlab_to_srs_preamble_format, h1, h2, h3, h4]

/-- Witness for the amended C7 at the concrete unknown tag "A1". -/
theorem enum_tag_validation_witness :
    matlab_to_srs_modulation "A1" =
        .error ⟨.invalidArgument, "Unknown modulation " ++ "A1" ++ "."⟩ ∧
      matlab_to_srs_restricted_set "A1" =
        .error ⟨.invalidArgument, "Unknown restricted set " ++ "A1" ++ "."⟩ ∧
      matlab_to_srs_preamble_format "A1" = preamble_format.OTHER :=
  ⟨(enum_tag_validation "A1").1 (by decide),
    (enum_tag_validation "A1").2.1 (by decide),
    (enum_tag_validation "A1").2.2 (by decide)⟩

/-- Counterexample to C7 as stated: the preamble-format tag "A1" lies
outside the closed set of valid names, yet the conversion does not fail
with `InvalidArgument` — it returns the `OTHER` enum value, which
`method_step` propagates into the detector configuration. -/
theorem preamble_format_unknown_tag_propagates :
    matlab_to_srs_preamble_format "A1" = preamble_format.OTHER ∧
      (buildPrachDetectorConfig ⟨"UnrestrictedSet", 0, "A1", 0⟩
        restricted_set_config.UNRESTRICTED).format = preamble_format.OTHER :=
  ⟨rfl, rfl⟩
